import Mathlib

/-!
Verification of the overlay controller in `src/src-tauri/src/lib.rs`.

The controller holds no state of its own: each command looks up the window
named "overlay" in the host registry and delegates to the host window API
(`show`, `hide`, `set_focus`, `is_visible`).  We embed the host environment
as a `Host` record carrying the window's presence, its visibility, and a
fault schedule: for each host window call, `none` means the call succeeds
and `some e` means it fails with the string-rendered error `e` (the Rust
code renders every host error with `.map_err(|e| e.to_string())`, so the
schedule stores the rendered string directly).

Each command is translated from the Rust source into a function
`Host → result × Host × List WinOp`, where the third component is the
trace of host window operations the invocation requested, in order.
The registry lookup `get_webview_window` is not a window operation and is
not traced.
-/

/-- The four host window operations the controller can request. -/
inductive WinOp
  | isVisible
  | hide
  | show
  | setFocus
deriving DecidableEq, Repr

/-- The host environment: whether a window named "overlay" is registered,
its current visibility, and the fault schedule of the four host window
calls (`none` = the call succeeds, `some e` = it fails and the Rust
`map_err(|e| e.to_string())` renders it as `e`). -/
structure Host where
  overlayPresent : Bool
  visible : Bool
  isVisibleErr : Option String := none
  hideErr : Option String := none
  showErr : Option String := none
  setFocusErr : Option String := none
deriving Repr

/-- `app.get_webview_window("overlay")`: the registry lookup; returns a
handle exactly when the window is registered. -/
def get_webview_window (h : Host) : Option Unit :=
  if h.overlayPresent then some () else none

/-- Host model of `window.is_visible()`: reads the visibility, or fails
according to the fault schedule.  Never mutates the host. -/
def window_is_visible (h : Host) : Except String Bool :=
  match h.isVisibleErr with
  | some e => Except.error e
  | none => Except.ok h.visible

/-- Host model of `window.hide()`: on success the window becomes hidden;
on failure the host state is unchanged. -/
def window_hide (h : Host) : Except String Unit × Host :=
  match h.hideErr with
  | some e => (Except.error e, h)
  | none => (Except.ok (), { h with visible := false })

/-- Host model of `window.show()`: on success the window becomes visible;
on failure the host state is unchanged. -/
def window_show (h : Host) : Except String Unit × Host :=
  match h.showErr with
  | some e => (Except.error e, h)
  | none => (Except.ok (), { h with visible := true })

/-- Host model of `window.set_focus()`: affects focus only, never
visibility; may fail according to the fault schedule. -/
def window_set_focus (h : Host) : Except String Unit × Host :=
  match h.setFocusErr with
  | some e => (Except.error e, h)
  | none => (Except.ok (), h)

/-- `show_overlay` from `lib.rs`: if the "overlay" window is found, show
it, then (only if show succeeded) focus it, propagating the first failure
with `?`; if the window is absent, return `Ok(())` without touching the
host. -/
def show_overlay (h : Host) : Except String Unit × Host × List WinOp :=
  match get_webview_window h with
  | some _ =>
    match window_show h with
    | (Except.error e, h1) => (Except.error e, h1, [WinOp.show])
    | (Except.ok _, h1) =>
      match window_set_focus h1 with
      | (Except.error e, h2) => (Except.error e, h2, [WinOp.show, WinOp.setFocus])
      | (Except.ok _, h2) => (Except.ok (), h2, [WinOp.show, WinOp.setFocus])
  | none => (Except.ok (), h, [])

/-- `hide_overlay` from `lib.rs`: if the "overlay" window is found, hide
it, propagating a failure with `?`; if absent, return `Ok(())` without
touching the host. -/
def hide_overlay (h : Host) : Except String Unit × Host × List WinOp :=
  match get_webview_window h with
  | some _ =>
    match window_hide h with
    | (Except.error e, h1) => (Except.error e, h1, [WinOp.hide])
    | (Except.ok _, h1) => (Except.ok (), h1, [WinOp.hide])
  | none => (Except.ok (), h, [])

/-- `toggle_overlay` from `lib.rs`: if the "overlay" window is absent,
fail with the fixed string `"Overlay window not found"`; otherwise read
`is_visible`, then hide (returning `Ok(false)`) if visible, or show then
focus (returning `Ok(true)`) if hidden, propagating any host failure. -/
def toggle_overlay (h : Host) : Except String Bool × Host × List WinOp :=
  match get_webview_window h with
  | some _ =>
    match window_is_visible h with
    | Except.error e => (Except.error e, h, [WinOp.isVisible])
    | Except.ok visible =>
      if visible then
        match window_hide h with
        | (Except.error e, h1) => (Except.error e, h1, [WinOp.isVisible, WinOp.hide])
        | (Except.ok _, h1) => (Except.ok false, h1, [WinOp.isVisible, WinOp.hide])
      else
        match window_show h with
        | (Except.error e, h1) => (Except.error e, h1, [WinOp.isVisible, WinOp.show])
        | (Except.ok _, h1) =>
          match window_set_focus h1 with
          | (Except.error e, h2) =>
            (Except.error e, h2, [WinOp.isVisible, WinOp.show, WinOp.setFocus])
          | (Except.ok _, h2) =>
            (Except.ok true, h2, [WinOp.isVisible, WinOp.show, WinOp.setFocus])
  | none => (Except.error "Overlay window not found", h, [])

/-- All four host window calls succeed in the current fault schedule. -/
def allHostCallsOk (h : Host) : Prop :=
  h.isVisibleErr = none ∧ h.hideErr = none ∧ h.showErr = none ∧ h.setFocusErr = none

/-- A present, visible overlay window with every host call succeeding. -/
def hostVisible : Host :=
  { overlayPresent := true, visible := true }

/-- A present, hidden overlay window with every host call succeeding. -/
def hostHidden : Host :=
  { overlayPresent := true, visible := false }

/-- A host with no "overlay" window registered. -/
def hostAbsent : Host :=
  { overlayPresent := false, visible := false }

/-- A present, hidden overlay window where `set_focus` fails. -/
def hostFocusFails : Host :=
  { overlayPresent := true, visible := false, setFocusErr := some "focus failed" }

/-- A present, hidden overlay window where `show` fails. -/
def hostShowFails : Host :=
  { overlayPresent := true, visible := false, showErr := some "show failed" }

/-- A present, visible overlay window where `hide` fails. -/
def hostHideFails : Host :=
  { overlayPresent := true, visible := true, hideErr := some "hide failed" }

/-- C1: with the "overlay" window present and every host call succeeding,
`toggle_overlay` returns `Ok` of the negation of the old visibility, the
window's new visibility equals that returned boolean, and the invocation
hides a visible window (resp. shows then focuses a hidden one). -/
theorem toggle_overlay_present_ok (h : Host) (hp : h.overlayPresent = true)
    (hok : allHostCallsOk h) :
    (toggle_overlay h).1 = Except.ok (!h.visible) ∧
    (toggle_overlay h).2.1.visible = !h.visible ∧
    (toggle_overlay h).2.2 =
      (if h.visible then [WinOp.isVisible, WinOp.hide]
       else [WinOp.isVisible, WinOp.show, WinOp.setFocus]) := by
  obtain ⟨p, v, ie, he, se, fe⟩ := h
  obtain ⟨h1, h2, h3, h4⟩ := hok
  cases p <;> cases v <;> cases ie <;> cases he <;> cases se <;> cases fe <;>
    simp_all [toggle_overlay, get_webview_window, window_is_visible, window_hide,
      window_show, window_set_focus]

/-- Witness for C1 at a present, visible window with all calls succeeding. -/
theorem toggle_overlay_present_ok_witness :
    hostVisible.overlayPresent = true ∧ allHostCallsOk hostVisible ∧
    ((toggle_overlay hostVisible).1 = Except.ok (!hostVisible.visible) ∧
     (toggle_overlay hostVisible).2.1.visible = !hostVisible.visible ∧
     (toggle_overlay hostVisible).2.2 =
       (if hostVisible.visible then [WinOp.isVisible, WinOp.hide]
        else [WinOp.isVisible, WinOp.show, WinOp.setFocus])) :=
  ⟨rfl, ⟨rfl, rfl, rfl, rfl⟩,
    toggle_overlay_present_ok hostVisible rfl ⟨rfl, rfl, rfl, rfl⟩⟩

/-- C2: with no "overlay" window registered, `toggle_overlay` returns the
fixed error string "Overlay window not found", leaves the host unchanged,
and requests no host window operation. -/
theorem toggle_overlay_absent (h : Host) (hp : h.overlayPresent = false) :
    toggle_overlay h = (Except.error "Overlay window not found", h, []) := by
  obtain ⟨p, v, ie, he, se, fe⟩ := h
  cases p <;> simp_all [toggle_overlay, get_webview_window]

/-- Witness for C2 at a host without the overlay window. -/
theorem toggle_overlay_absent_witness :
    toggle_overlay hostAbsent =
      (Except.error "Overlay window not found", hostAbsent, []) :=
  toggle_overlay_absent hostAbsent rfl

/-- C3: with no "overlay" window registered, `show_overlay` and
`hide_overlay` both return `Ok(())`, leave the host unchanged and request
no host window operation; moreover any error either operation ever returns
is a string-rendered host-call error, never a "not found" string of its
own. -/
theorem show_hide_overlay_absent (h : Host) :
    (h.overlayPresent = false →
      show_overlay h = (Except.ok (), h, []) ∧
      hide_overlay h = (Except.ok (), h, [])) ∧
    (∀ e, (show_overlay h).1 = Except.error e →
      h.showErr = some e ∨ h.setFocusErr = some e) ∧
    (∀ e, (hide_overlay h).1 = Except.error e → h.hideErr = some e) := by
  obtain ⟨p, v, ie, he, se, fe⟩ := h
  cases p <;> cases ie <;> cases he <;> cases se <;> cases fe <;>
    simp_all [show_overlay, hide_overlay, get_webview_window, window_hide,
      window_show, window_set_focus]

/-- Witness for C3 at a host without the overlay window. -/
theorem show_hide_overlay_absent_witness :
    show_overlay hostAbsent = (Except.ok (), hostAbsent, []) ∧
    hide_overlay hostAbsent = (Except.ok (), hostAbsent, []) :=
  (show_hide_overlay_absent hostAbsent).1 rfl

/-- C4: with the "overlay" window present, `show_overlay` requests `show`
first; when both `show` and `set_focus` succeed it returns `Ok(())` with
the window visible; when a host call fails it returns the string rendering
of the first failing call, and `set_focus` is requested only after `show`
succeeded. -/
theorem show_overlay_present (h : Host) (hp : h.overlayPresent = true) :
    (show_overlay h).2.2.head? = some WinOp.show ∧
    (h.showErr = none → h.setFocusErr = none →
      show_overlay h =
        (Except.ok (), { h with visible := true }, [WinOp.show, WinOp.setFocus])) ∧
    (∀ e, h.showErr = some e →
      show_overlay h = (Except.error e, h, [WinOp.show])) ∧
    (∀ e, h.showErr = none → h.setFocusErr = some e →
      show_overlay h =
        (Except.error e, { h with visible := true }, [WinOp.show, WinOp.setFocus])) := by
  obtain ⟨p, v, ie, he, se, fe⟩ := h
  cases p <;> cases se <;> cases fe <;>
    simp_all [show_overlay, get_webview_window, window_show, window_set_focus]

/-- Witness for C4 at a present, hidden window with all calls succeeding. -/
theorem show_overlay_present_witness :
    show_overlay hostHidden =
      (Except.ok (), { hostHidden with visible := true },
        [WinOp.show, WinOp.setFocus]) :=
  (show_overlay_present hostHidden rfl).2.1 rfl rfl

/-- C5: `hide_overlay` returns an error exactly when the "overlay" window
is present and the host `hide` call fails, and then the error is the
string rendering of that host error; in every other case it returns
`Ok(())`. -/
theorem hide_overlay_spec (h : Host) :
    (∀ e, (hide_overlay h).1 = Except.error e ↔
      h.overlayPresent = true ∧ h.hideErr = some e) ∧
    ((hide_overlay h).1 = Except.ok () ↔
      (h.overlayPresent = false ∨ h.hideErr = none)) := by
  obtain ⟨p, v, ie, he, se, fe⟩ := h
  cases p <;> cases he <;>
    simp_all [hide_overlay, get_webview_window, window_hide]

/-- Witness for C5: a present window whose host `hide` call fails yields
exactly the rendered host error. -/
theorem hide_overlay_spec_witness :
    (hide_overlay hostHideFails).1 = Except.error "hide failed" :=
  ((hide_overlay_spec hostHideFails).1 "hide failed").mpr ⟨rfl, rfl⟩

/-- C6: with the "overlay" window present and every host call succeeding,
`hide_overlay` followed by `show_overlay` succeeds and leaves the window
visible. -/
theorem hide_then_show_visible (h : Host) (hp : h.overlayPresent = true)
    (hok : allHostCallsOk h) :
    (hide_overlay h).1 = Except.ok () ∧
    (show_overlay (hide_overlay h).2.1).1 = Except.ok () ∧
    (show_overlay (hide_overlay h).2.1).2.1.visible = true := by
  obtain ⟨p, v, ie, he, se, fe⟩ := h
  obtain ⟨h1, h2, h3, h4⟩ := hok
  cases p <;> cases v <;> cases he <;> cases se <;> cases fe <;>
    simp_all [show_overlay, hide_overlay, get_webview_window, window_hide,
      window_show, window_set_focus]

/-- Witness for C6 at a present, visible window with all calls succeeding. -/
theorem hide_then_show_visible_witness :
    (hide_overlay hostVisible).1 = Except.ok () ∧
    (show_overlay (hide_overlay hostVisible).2.1).1 = Except.ok () ∧
    (show_overlay (hide_overlay hostVisible).2.1).2.1.visible = true :=
  hide_then_show_visible hostVisible rfl ⟨rfl, rfl, rfl, rfl⟩

/-- C7: with the "overlay" window present and every host call succeeding,
the first `toggle_overlay` returns the complement of the starting
visibility, and a second `toggle_overlay` restores the starting
visibility (returning it as its own result). -/
theorem toggle_overlay_twice (h : Host) (hp : h.overlayPresent = true)
    (hok : allHostCallsOk h) :
    (toggle_overlay h).1 = Except.ok (!h.visible) ∧
    (toggle_overlay (toggle_overlay h).2.1).1 = Except.ok h.visible ∧
    (toggle_overlay (toggle_overlay h).2.1).2.1.visible = h.visible := by
  obtain ⟨p, v, ie, he, se, fe⟩ := h
  obtain ⟨h1, h2, h3, h4⟩ := hok
  cases p <;> cases v <;> cases ie <;> cases he <;> cases se <;> cases fe <;>
    simp_all [toggle_overlay, get_webview_window, window_is_visible, window_hide,
      window_show, window_set_focus]

/-- Witness for C7 at a present, hidden window with all calls succeeding. -/
theorem toggle_overlay_twice_witness :
    (toggle_overlay hostHidden).1 = Except.ok (!hostHidden.visible) ∧
    (toggle_overlay (toggle_overlay hostHidden).2.1).1 =
      Except.ok hostHidden.visible ∧
    (toggle_overlay (toggle_overlay hostHidden).2.1).2.1.visible =
      hostHidden.visible :=
  toggle_overlay_twice hostHidden rfl ⟨rfl, rfl, rfl, rfl⟩

/-- C8: `toggle_overlay` is not atomic on error: starting from a present,
hidden window where host `show` succeeds and host `set_focus` fails, it
returns an error even though the window has already been made visible. -/
theorem toggle_overlay_not_atomic :
    hostFocusFails.overlayPresent = true ∧
    hostFocusFails.visible = false ∧
    (toggle_overlay hostFocusFails).1 = Except.error "focus failed" ∧
    (toggle_overlay hostFocusFails).2.1.visible = true :=
  ⟨rfl, rfl, rfl, rfl⟩

/-- C9: `hide_overlay` never requests `show` or `set_focus`; one
invocation of `toggle_overlay` requests at most one visibility mutation
(`hide` or `show`, never both) and reads `is_visible` at most once, and
whenever it mutates it has read `is_visible` exactly once, first. -/
theorem hide_toggle_frame (h : Host) :
    WinOp.show ∉ (hide_overlay h).2.2 ∧
    WinOp.setFocus ∉ (hide_overlay h).2.2 ∧
    (toggle_overlay h).2.2.count WinOp.hide +
      (toggle_overlay h).2.2.count WinOp.show ≤ 1 ∧
    (toggle_overlay h).2.2.count WinOp.isVisible ≤ 1 ∧
    (WinOp.hide ∈ (toggle_overlay h).2.2 ∨ WinOp.show ∈ (toggle_overlay h).2.2 →
      (toggle_overlay h).2.2.head? = some WinOp.isVisible ∧
      (toggle_overlay h).2.2.count WinOp.isVisible = 1) := by
  obtain ⟨p, v, ie, he, se, fe⟩ := h
  cases p <;> cases v <;> cases ie <;> cases he <;> cases se <;> cases fe <;>
    simp_all [toggle_overlay, hide_overlay, get_webview_window, window_is_visible,
      window_hide, window_show, window_set_focus]

/-- Witness for C9: a toggle that mutates has read `is_visible` exactly
once, before the mutation. -/
theorem hide_toggle_frame_witness :
    (toggle_overlay hostVisible).2.2.head? = some WinOp.isVisible ∧
    (toggle_overlay hostVisible).2.2.count WinOp.isVisible = 1 :=
  (hide_toggle_frame hostVisible).2.2.2.2 (Or.inl (by decide))

/-- C10: `set_focus` is requested (by `show_overlay` or by the hidden
branch of `toggle_overlay`) only when the preceding `show` call succeeded
in the same invocation; when `show` fails, the operation returns that
error at once without requesting `set_focus`. -/
theorem set_focus_only_after_show (h : Host) :
    (WinOp.setFocus ∈ (show_overlay h).2.2 → h.showErr = none) ∧
    (∀ e, h.overlayPresent = true → h.showErr = some e →
      (show_overlay h).1 = Except.error e ∧
      WinOp.setFocus ∉ (show_overlay h).2.2) ∧
    (WinOp.setFocus ∈ (toggle_overlay h).2.2 → h.showErr = none) ∧
    (∀ e, h.overlayPresent = true → h.isVisibleErr = none → h.visible = false →
      h.showErr = some e →
      (toggle_overlay h).1 = Except.error e ∧
      WinOp.setFocus ∉ (toggle_overlay h).2.2) := by
  obtain ⟨p, v, ie, he, se, fe⟩ := h
  cases p <;> cases v <;> cases ie <;> cases he <;> cases se <;> cases fe <;>
    simp_all [toggle_overlay, show_overlay, get_webview_window, window_is_visible,
      window_hide, window_show, window_set_focus]

/-- Witness for C10: with `show` failing on a present, hidden window,
`show_overlay` returns the rendered show error and never requests
`set_focus`. -/
theorem set_focus_only_after_show_witness :
    (show_overlay hostShowFails).1 = Except.error "show failed" ∧
    WinOp.setFocus ∉ (show_overlay hostShowFails).2.2 :=
  (set_focus_only_after_show hostShowFails).2.1 "show failed" rfl rfl
